import Mathlib

/-!
Verification of the contact-form backend (`src/api/contact.ts`).

The TypeScript source is shallowly embedded below: the in-memory rate-limit
table becomes explicit state passing, `Date.now()` and the current date become
explicit numeric parameters, `Math.random().toString(36)` is modelled by the
list of base-36 fractional digits of the random value, and the nodemailer
transport becomes an oracle `relay : Nat → Bool` giving the outcome of the
n-th `sendMail` call.  All definitions are executable.  Definitions come
first, theorems follow.
-/

namespace Geonix

/-- `RATE_LIMIT_WINDOW_MS` from the source (60_000). -/
def RATE_LIMIT_WINDOW_MS : Nat := 60000

/-- `RATE_LIMIT_MAX` from the source (3). -/
def RATE_LIMIT_MAX : Nat := 3

/-- One entry of the `ipBucket` map: `{ count: number; resetAt: number }`. -/
structure RLEntry where
  count : Nat
  resetAt : Nat
deriving DecidableEq

/-- The `ipBucket : Map<string, RLEntry>` table, as a total lookup function. -/
abbrev Bucket := String → Option RLEntry

/-- `ipBucket.set(ip, e)`. -/
def setEntry (b : Bucket) (ip : String) (e : RLEntry) : Bucket :=
  fun k => if k = ip then some e else b k

/-- Result value of `rateLimit`: `{ ok: true }` or `{ ok: false, retryAfterMs }`. -/
structure RLResult where
  ok : Bool
  retryAfterMs : Option Nat
deriving DecidableEq

/-- The source's `rateLimit(ip)` function, with the mutable `ipBucket` and
`Date.now()` made explicit.  Returns the result together with the updated
table. -/
def rateLimit (b : Bucket) (ip : String) (now : Nat) : RLResult × Bucket :=
  match b ip with
  | none => (⟨true, none⟩, setEntry b ip ⟨1, now + RATE_LIMIT_WINDOW_MS⟩)
  | some cur =>
    if now > cur.resetAt then
      (⟨true, none⟩, setEntry b ip ⟨1, now + RATE_LIMIT_WINDOW_MS⟩)
    else if cur.count ≥ RATE_LIMIT_MAX then
      (⟨false, some (cur.resetAt - now)⟩, b)
    else
      (⟨true, none⟩, setEntry b ip ⟨cur.count + 1, cur.resetAt⟩)

/-- Spec §4.1 configuration constant `WINDOW_MS = 60,000`. -/
def WINDOW_MS : Nat := 60000

/-- Spec §4.1 configuration constant `MAX_PER_WINDOW = 3`. -/
def MAX_PER_WINDOW : Nat := 3

/-- Spec §4.1 contract outcome: `Allowed | Denied(retryAfterMs)`. -/
inductive CheckOutcome where
  | Allowed : CheckOutcome
  | Denied : Nat → CheckOutcome
deriving DecidableEq

/-- Modelled from the spec's words (§4.1): "On check: if no entry exists for
the key, or the stored window has expired (current time > windowResetAt),
create/reset the entry with count=1 and windowResetAt = now + WINDOW_MS,
return Allowed.  Otherwise, if count ≥ MAX_PER_WINDOW, return Denied with
retryAfterMs = windowResetAt − now.  Otherwise increment count, return
Allowed."  Written independently of `rateLimit`, to be compared with it. -/
def rateLimitSpec (b : Bucket) (key : String) (now : Nat) : CheckOutcome × Bucket :=
  match b key with
  | none => (.Allowed, setEntry b key ⟨1, now + WINDOW_MS⟩)
  | some e =>
    if e.resetAt < now then
      (.Allowed, setEntry b key ⟨1, now + WINDOW_MS⟩)
    else if MAX_PER_WINDOW ≤ e.count then
      (.Denied (e.resetAt - now), b)
    else
      (.Allowed, setEntry b key ⟨e.count + 1, e.resetAt⟩)

/-- View of the source's result record as the spec's contract outcome. -/
def toOutcome (r : RLResult) : CheckOutcome :=
  if r.ok then .Allowed else .Denied (r.retryAfterMs.getD 0)

/-- Test of the CR/LF character class `[\r\n]` of the sanitizer's regex. -/
def isCRLF (c : Char) : Bool := c = '\r' || c = '\n'

/-- JS whitespace test, for `String.prototype.trim`. -/
def isWS (c : Char) : Bool := c.isWhitespace

/-- `s.replace(/[\r\n]+/g, " ")` on the character list: every maximal run of
CR/LF characters becomes a single space.  The boolean argument records
whether the previous character belonged to a CR/LF run. -/
def collapseCRLF : Bool → List Char → List Char
  | _, [] => []
  | inRun, c :: cs =>
    if isCRLF c then
      (if inRun then collapseCRLF true cs else ' ' :: collapseCRLF true cs)
    else
      c :: collapseCRLF false cs

/-- `String.prototype.trim` on the character list. -/
def trimChars (l : List Char) : List Char :=
  ((l.dropWhile isWS).reverse.dropWhile isWS).reverse

/-- `String.prototype.trim`. -/
def trimS (s : String) : String := String.mk (trimChars s.data)

/-- The source's `escapeHeaderText(s)`:
`String(s || "").replace(/[\r\n]+/g, " ").trim()`. -/
def escapeHeaderText (s : String) : String :=
  String.mk (trimChars (collapseCRLF false s.data))

/-- One base-36 digit character as produced by `Number.prototype.toString(36)`
(`0`–`9` then `a`–`z`). -/
def digitChar36 (n : Nat) : Char :=
  if n < 10 then Char.ofNat (48 + n) else Char.ofNat (87 + n)

/-- `Math.random().toString(36)` for a random value in `[0, 1)` given by the
list of base-36 fractional digits of its shortest representation: the string
is `0.d1d2…`, or just `0` when the value is `0` (empty digit list, no
trailing zero digits). -/
def randToString36 (ds : List Nat) : List Char :=
  match ds with
  | [] => ['0']
  | _ => '0' :: '.' :: ds.map digitChar36

/-- `Math.random().toString(36).slice(2, 8).toUpperCase()` — the random part
of the ticket (the source's comment says `// 6 chars`). -/
def randSuffix (ds : List Nat) : List Char :=
  (((randToString36 ds).drop 2).take 6).map Char.toUpper

/-- `String(n).padStart(2, "0")` for a month or day number. -/
def padTwo (n : Nat) : String := if n < 10 then "0" ++ Nat.repr n else Nat.repr n

/-- The source's `makeTicket(prefix)`, with the current date (year, 1-based
month as `getMonth() + 1`, day of month) and the random value's base-36
fractional digits made explicit. -/
def makeTicket (pfx : String) (year month day : Nat) (ds : List Nat) : String :=
  pfx ++ "-" ++ Nat.repr year ++ padTwo month ++ padTwo day ++ "-" ++
    String.mk (randSuffix ds)

/-- Character class `[A-Z]`. -/
def isUpperCh (c : Char) : Bool := 'A' ≤ c && c ≤ 'Z'

/-- Character class `\d`. -/
def isDigitCh (c : Char) : Bool := '0' ≤ c && c ≤ '9'

/-- Character class `[A-Z0-9]`. -/
def isUpperAlnum (c : Char) : Bool := isUpperCh c || isDigitCh c

/-- Decision procedure for the spec's ticket pattern
`^[A-Z]+-\d{8}-[A-Z0-9]{6}$`: one or more uppercase letters, a dash, exactly
eight digits, a dash, exactly six uppercase alphanumerics, end of string.
Since `-` is not in `[A-Z]`, the greedy `[A-Z]+` is exactly the maximal
uppercase run, so this matches the regex. -/
def ticketMatches (s : String) : Bool :=
  let l := s.data
  !(l.takeWhile isUpperCh).isEmpty &&
    match l.dropWhile isUpperCh with
    | '-' :: r2 =>
      ((r2.take 8).length == 8) && (r2.take 8).all isDigitCh &&
        (match r2.drop 8 with
         | '-' :: r3 => (r3.length == 6) && r3.all isUpperAlnum
         | _ => false)
    | _ => false

/-- `s.slice(a, b)` for `0 ≤ a ≤ b` (JS string slice). -/
def jsSlice (s : String) (a b : Nat) : String :=
  String.mk ((s.data.drop a).take (b - a))

/-- The source's acknowledgement summary:
`message.length > 220 ? message.slice(0, 220) + "..." : message`. -/
def summaryOf (m : String) : String :=
  if m.data.length > 220 then jsSlice m 0 220 ++ "..." else m

/-- `String(x || "")` for an optional request-body field: `undefined` and the
empty string are falsy, any other string is kept. -/
def strOr (o : Option String) : String :=
  match o with
  | none => ""
  | some s => s

/-- JS falsiness of an environment value (`!process.env.X`): absent or empty. -/
def isFalsyEnv (o : Option String) : Bool :=
  match o with
  | none => true
  | some s => s == ""

/-- The honeypot guard `body?.hp && String(body.hp).trim() !== ""`. -/
def hpTripped (o : Option String) : Bool :=
  match o with
  | none => false
  | some h => (h != "") && (trimS h != "")

/-- `s.split(",")[0]` (JS `split` always yields a non-empty array). -/
def firstCommaField (s : String) : String := (s.splitOn ",").headD ""

/-- The client key:
`(req.headers["x-forwarded-for"])?.split(",")[0]?.trim() || (req.socket?.remoteAddress ?? "unknown")`. -/
def clientIp (xff : Option String) (remoteAddr : Option String) : String :=
  let fb := match remoteAddr with
    | none => "unknown"
    | some a => a
  match xff with
  | none => fb
  | some s =>
    let p := trimS (firstCommaField s)
    if p = "" then fb else p

/-- Character class `[^\s@]` of the email regex. -/
def emailChar (c : Char) : Bool := !c.isWhitespace && c != '@'

/-- The source's `isValidEmail`: `/^[^\s@]+@[^\s@]+\.[^\s@]+$/.test(email)`.
The string must be `A@B` with `A` a non-empty run of non-space non-`@`
characters and `B` a non-space non-`@` run that contains a dot with at least
one character on each side (the regex classes admit `.`, so backtracking
accepts any such split). -/
def isValidEmail (s : String) : Bool :=
  let l := s.data
  let lp := l.takeWhile (fun c => c != '@')
  !lp.isEmpty && lp.all emailChar &&
    match l.dropWhile (fun c => c != '@') with
    | '@' :: rest => rest.all emailChar && ((rest.drop 1).dropLast.contains '.')
    | _ => false

/-- `Math.ceil(n / 1000)` on a non-negative integer number of milliseconds. -/
def ceilDivThousand (n : Nat) : Nat := (n + 999) / 1000

/-- Structured request body: `{ name, email, message, company?, website?,
phone?, hp? }`, every field possibly absent. -/
structure Body where
  name : Option String
  email : Option String
  message : Option String
  company : Option String
  website : Option String
  phone : Option String
  hp : Option String
deriving DecidableEq

/-- Mail-relay configuration from the environment (`process.env.MAIL_*`);
only the four values the handler requires are modelled. -/
structure Env where
  mailHost : Option String
  mailUser : Option String
  mailPass : Option String
  mailTo : Option String
deriving DecidableEq

/-- One `transporter.sendMail({...})` argument: from, to, replyTo, subject,
text. -/
structure OutboundMessage where
  fromAddr : String
  toAddr : String
  replyTo : String
  subject : String
  text : String
deriving DecidableEq

/-- The JSON response: HTTP status, `ok`, optional `error`, optional
`ticket`, optional `Retry-After` header value (seconds). -/
structure HResponse where
  status : Nat
  ok : Bool
  error : Option String
  ticket : Option String
  retryAfterHeader : Option Nat
deriving DecidableEq

/-- Observable outcome of one handler invocation: the response, the list of
attempted `sendMail` calls in order, and the rate-limit table afterwards. -/
structure HandlerOutcome where
  response : HResponse
  sends : List OutboundMessage
  bucket : Bucket

/-- Lines of the admin notification body.  The source joins the array with
`\n` after `.filter(Boolean)`, which removes the empty strings (including
the `""` separators and the optional fields when absent). -/
def adminLines (ticket nm email company phone website message : String) : List String :=
  ([ "[접수번호] " ++ ticket,
     "",
     "Name: " ++ nm,
     "Email: " ++ email,
     if company != "" then "Company: " ++ company else "",
     if phone != "" then "Phone: " ++ phone else "",
     if website != "" then "Website: " ++ website else "",
     "",
     "Message:",
     message ]).filter (fun s => s != "")

/-- Body text of the admin notification. -/
def adminText (ticket nm email company phone website message : String) : String :=
  String.intercalate "\n" (adminLines ticket nm email company phone website message)

/-- Lines of the acknowledgement body (joined with `\n`, no filtering). -/
def userLines (ticket nm company phone message : String) : List String :=
  [ "안녕하세요 " ++ nm ++ "님,",
    "문의가 정상적으로 접수되었습니다.",
    "",
    "- 접수번호: " ++ ticket,
    if company != "" then "- Company: " ++ company else "- Company: -",
    if phone != "" then "- Phone: " ++ phone else "- Phone: -",
    "- 접수내용(요약): " ++ summaryOf message,
    "",
    "담당자가 확인 후 회신드리겠습니다. 감사합니다.",
    "",
    "------------------------------",
    "",
    "Hello " ++ nm ++ ",",
    "We’ve received your inquiry successfully.",
    "",
    "- Ticket: " ++ ticket,
    if company != "" then "- Company: " ++ company else "- Company: -",
    if phone != "" then "- Phone: " ++ phone else "- Phone: -",
    "- Message (summary): " ++ summaryOf message,
    "",
    "Our team will get back to you as soon as possible. Thank you." ]

/-- Body text of the acknowledgement. -/
def userText (ticket nm company phone message : String) : String :=
  String.intercalate "\n" (userLines ticket nm company phone message)

/-- The contact handler, shallow embedding of `handler(req, res)`.
Explicit parameters replace the ambient effects: `method` is `req.method`,
`xff`/`remoteAddr` derive the client key, `body` is the parsed JSON body,
`env` the mail-relay configuration, `bucket`/`now` the rate-limit table and
`Date.now()`, `year`/`month`/`day`/`randDigits` feed `makeTicket`, and
`relay n` is the success of the n-th `transporter.sendMail` call (a failed
send throws, which the source's `catch` turns into `500 send_failed`). -/
def handler (method : String) (xff remoteAddr : Option String) (body : Body)
    (env : Env) (bucket : Bucket) (now : Nat) (year month day : Nat)
    (randDigits : List Nat) (relay : Nat → Bool) : HandlerOutcome :=
  if method ≠ "POST" then
    ⟨⟨405, false, some "method_not_allowed", none, none⟩, [], bucket⟩
  else if hpTripped body.hp = true then
    ⟨⟨200, true, none, none, none⟩, [], bucket⟩
  else
    let rl := rateLimit bucket (clientIp xff remoteAddr) now
    if rl.1.ok = false then
      ⟨⟨429, false, some "rate_limited", none,
        some (ceilDivThousand (rl.1.retryAfterMs.getD 0))⟩, [], rl.2⟩
    else
      let nm := trimS (strOr body.name)
      let email := trimS (strOr body.email)
      let message := trimS (strOr body.message)
      let company := trimS (strOr body.company)
      let website := trimS (strOr body.website)
      let phone := trimS (strOr body.phone)
      if nm = "" ∨ email = "" ∨ message = "" then
        ⟨⟨400, false, some "missing_fields", none, none⟩, [], rl.2⟩
      else if isValidEmail email = false then
        ⟨⟨400, false, some "invalid_email", none, none⟩, [], rl.2⟩
      else if 80 < nm.length ∨ 120 < company.length ∨ 200 < website.length ∨
          80 < phone.length then
        ⟨⟨400, false, some "field_too_long", none, none⟩, [], rl.2⟩
      else if 5000 < message.length then
        ⟨⟨400, false, some "message_too_long", none, none⟩, [], rl.2⟩
      else if isFalsyEnv env.mailHost = true ∨ isFalsyEnv env.mailUser = true ∨
          isFalsyEnv env.mailPass = true ∨ isFalsyEnv env.mailTo = true then
        ⟨⟨500, false, some "server_not_configured", none, none⟩, [], rl.2⟩
      else
        let user := strOr env.mailUser
        let toAddr := strOr env.mailTo
        let safeName := escapeHeaderText nm
        let safeEmail := escapeHeaderText email
        let ticket := makeTicket "GEONIX" year month day randDigits
        let adminMsg : OutboundMessage :=
          ⟨"\"Website Contact\" <" ++ user ++ ">", toAddr, email,
            "[GEONIX 웹문의] " ++ safeName ++ " (" ++ safeEmail ++ ")",
            adminText ticket nm email company phone website message⟩
        if relay 0 = false then
          ⟨⟨500, false, some "send_failed", none, none⟩, [adminMsg], rl.2⟩
        else
          let userMsg : OutboundMessage :=
            ⟨"\"GEONIX\" <" ++ user ++ ">", email, toAddr,
              "문의가 접수되었습니다 / We’ve received your inquiry (Ticket: " ++
                ticket ++ ")",
              userText ticket nm company phone message⟩
          if relay 1 = false then
            ⟨⟨500, false, some "send_failed", none, none⟩, [adminMsg, userMsg], rl.2⟩
          else
            ⟨⟨200, true, none, some ticket, none⟩, [adminMsg, userMsg], rl.2⟩

/-- A sequence of `rateLimit` checks for one key at the given times:
the list of results and the final table. -/
def checkSeq (b : Bucket) (key : String) : List Nat → List RLResult × Bucket
  | [] => ([], b)
  | t :: ts =>
    ((rateLimit b key t).1 :: (checkSeq (rateLimit b key t).2 key ts).1,
      (checkSeq (rateLimit b key t).2 key ts).2)

/-- Invariant of the rate-limit table: every stored entry has
`1 ≤ count ≤ RATE_LIMIT_MAX`. -/
def BucketInv (b : Bucket) : Prop :=
  ∀ k e, b k = some e → 1 ≤ e.count ∧ e.count ≤ RATE_LIMIT_MAX

/-- Fold of `rateLimit` over a list of (key, time) checks. -/
def runChecks (b : Bucket) : List (String × Nat) → Bucket
  | [] => b
  | op :: rest => runChecks (rateLimit b op.1 op.2).2 rest

/-- A body whose honeypot field is filled, for the C4 witness. -/
def hpBody : Body := ⟨none, none, none, none, none, none, some "bot"⟩

/-- A syntactically valid submission body, for witnesses. -/
def okBody : Body :=
  ⟨some "Alice", some "alice@example.com", some "Hello there", none, none, none, none⟩

/-- A complete mail-relay configuration, for witnesses. -/
def okEnv : Env := ⟨some "smtp.example.com", some "mailer", some "secret", some "admin@example.com"⟩

/-- A configuration with `MAIL_TO` absent, for the C8 witness. -/
def noToEnv : Env := ⟨some "smtp.example.com", some "mailer", some "secret", none⟩

/-- The empty rate-limit table. -/
def emptyBucket : Bucket := fun _ => none

/-- A table whose entry for `"client"` has exhausted the window quota. -/
def busyBucket : Bucket := fun k => if k = "client" then some ⟨3, 100⟩ else none

/-- A relay on which every send succeeds. -/
def allRelayOk : Nat → Bool := fun _ => true

/-- A relay on which every send fails. -/
def noRelay : Nat → Bool := fun _ => false

/-- A 300-character message, for the truncation witness. -/
def sampleLong : String := String.mk (List.replicate 300 'a')

/-- A 100-character message, for the truncation witness. -/
def sampleShort : String := String.mk (List.replicate 100 'b')

/- ------------------------------------------------------------------ -/
/- Theorems.                                                           -/
/- ------------------------------------------------------------------ -/

/-- C1: for every client key, table and current time, the source's
`rateLimit` behaves exactly as the spec's fixed-window counter: same
Allowed/Denied outcome (with `retryAfterMs = windowResetAt − now` on denial)
and same updated table. -/
theorem rateLimit_refines_fixed_window (b : Bucket) (ip : String) (now : Nat) :
    toOutcome (rateLimit b ip now).1 = (rateLimitSpec b ip now).1 ∧
    (rateLimit b ip now).2 = (rateLimitSpec b ip now).2 := by
  cases hb : b ip with
  | none =>
    simp [rateLimit, rateLimitSpec, toOutcome, hb, RATE_LIMIT_WINDOW_MS, WINDOW_MS]
  | some cur =>
    simp only [rateLimit, rateLimitSpec, hb, RATE_LIMIT_WINDOW_MS, WINDOW_MS,
      RATE_LIMIT_MAX, MAX_PER_WINDOW]
    by_cases h1 : cur.resetAt < now
    · simp [h1, toOutcome]
    · by_cases h2 : 3 ≤ cur.count
      · simp [h1, h2, toOutcome]
      · simp [h1, h2, toOutcome]

theorem mem_collapseCRLF {c : Char} :
    ∀ {b : Bool} {l : List Char}, c ∈ collapseCRLF b l → isCRLF c = false := by
  intro b l
  induction l generalizing b with
  | nil => intro h; simp [collapseCRLF] at h
  | cons a as ih =>
    intro h
    by_cases ha : isCRLF a
    · rw [collapseCRLF, if_pos ha] at h
      cases b with
      | true => rw [if_pos rfl] at h; exact ih h
      | false =>
        rw [if_neg Bool.false_ne_true] at h
        rcases List.mem_cons.mp h with h | h
        · subst h; rfl
        · exact ih h
    · rw [collapseCRLF, if_neg ha] at h
      rcases List.mem_cons.mp h with h | h
      · subst h; simpa using ha
      · exact ih h

theorem mem_of_mem_dropWhile {p : Char → Bool} {c : Char} :
    ∀ {l : List Char}, c ∈ l.dropWhile p → c ∈ l := by
  intro l
  induction l with
  | nil => intro h; simp at h
  | cons a as ih =>
    intro h
    rw [List.dropWhile_cons] at h
    by_cases hp : p a
    · simp only [hp, if_true] at h
      exact List.mem_cons_of_mem a (ih h)
    · simp only [hp, if_false] at h
      exact h

theorem mem_of_mem_trimChars {c : Char} {l : List Char}
    (h : c ∈ trimChars l) : c ∈ l := by
  unfold trimChars at h
  rw [List.mem_reverse] at h
  have h2 := mem_of_mem_dropWhile h
  rw [List.mem_reverse] at h2
  exact mem_of_mem_dropWhile h2

/-- C6: for every input string, the sanitized value produced by
`escapeHeaderText` (used for the header-bound name and email fields before
they are embedded in the outbound message subject) contains no
carriage-return and no newline character: each maximal CR/LF run of the
input is collapsed to a single space. -/
theorem escapeHeaderText_no_crlf (s : String) :
    (escapeHeaderText s).data.all (fun c => !(isCRLF c)) = true := by
  rw [List.all_eq_true]
  intro c hc
  have hc' : c ∈ trimChars (collapseCRLF false s.data) := hc
  have := mem_collapseCRLF (mem_of_mem_trimChars hc')
  simp [this]

/-- C3: refuted as stated — the random suffix does not always have exactly 6
characters.  When the random value is `1/2` (base-36 expansion `0.i`, digit
list `[18]`), `slice(2, 8)` yields the single character `i`, so the ticket is
`GEONIX-20260210-I` with a 1-character suffix, which does not match the
pattern; with a full-length expansion (six or more fractional digits) the
ticket does match.  The code contradicts its own `// 6 chars` comment. -/
theorem makeTicket_short_suffix_bug :
    makeTicket "GEONIX" 2026 2 10 [18] = "GEONIX-20260210-I" ∧
    ticketMatches (makeTicket "GEONIX" 2026 2 10 [18]) = false ∧
    (randSuffix [18]).length = 1 ∧
    ticketMatches (makeTicket "GEONIX" 2026 2 10 [0, 1, 2, 3, 4, 35]) = true := by
  decide

theorem setEntry_same (b : Bucket) (ip : String) (e : RLEntry) :
    setEntry b ip e ip = some e := by
  simp [setEntry]

theorem rateLimit_none {b : Bucket} {ip : String} (now : Nat) (hb : b ip = none) :
    rateLimit b ip now = (⟨true, none⟩, setEntry b ip ⟨1, now + RATE_LIMIT_WINDOW_MS⟩) := by
  simp [rateLimit, hb]

theorem rateLimit_inc {b : Bucket} {ip : String} {cur : RLEntry} (now : Nat)
    (hb : b ip = some cur) (hexp : ¬ now > cur.resetAt)
    (hcnt : ¬ cur.count ≥ RATE_LIMIT_MAX) :
    rateLimit b ip now = (⟨true, none⟩, setEntry b ip ⟨cur.count + 1, cur.resetAt⟩) := by
  simp [rateLimit, hb, hexp, hcnt]

theorem rateLimit_deny {b : Bucket} {ip : String} {cur : RLEntry} (now : Nat)
    (hb : b ip = some cur) (hexp : ¬ now > cur.resetAt)
    (hcnt : cur.count ≥ RATE_LIMIT_MAX) :
    rateLimit b ip now = (⟨false, some (cur.resetAt - now)⟩, b) := by
  simp [rateLimit, hb, hexp, hcnt]

/-- C9: whenever a check is denied, the table is returned unchanged — the
denied request neither consumes quota nor prolongs the window. -/
theorem rateLimit_denied_preserves_table (b : Bucket) (ip : String) (now : Nat)
    (h : (rateLimit b ip now).1.ok = false) :
    (rateLimit b ip now).2 = b := by
  cases hb : b ip with
  | none => rw [rateLimit_none now hb] at h; simp at h
  | some cur =>
    by_cases h1 : now > cur.resetAt
    · have : rateLimit b ip now =
          (⟨true, none⟩, setEntry b ip ⟨1, now + RATE_LIMIT_WINDOW_MS⟩) := by
        simp [rateLimit, hb, h1]
      rw [this] at h; simp at h
    · by_cases h2 : cur.count ≥ RATE_LIMIT_MAX
      · rw [rateLimit_deny now hb h1 h2]
      · rw [rateLimit_inc now hb h1 h2] at h; simp at h

/-- C9 witness: a concrete denied check (entry at quota, window not yet
expired) leaves the concrete table untouched. -/
theorem rateLimit_denied_preserves_table_witness :
    (rateLimit busyBucket "client" 50).1.ok = false ∧
    (rateLimit busyBucket "client" 50).2 = busyBucket :=
  ⟨by decide, rateLimit_denied_preserves_table busyBucket "client" 50 (by decide)⟩

theorem rateLimit_preserves_inv (b : Bucket) (ip : String) (now : Nat)
    (h : BucketInv b) : BucketInv (rateLimit b ip now).2 := by
  intro k e hk
  by_cases hki : k = ip
  · subst hki
    cases hb : b k with
    | none =>
      simp only [rateLimit_none now hb, setEntry_same] at hk
      injection hk with hk2
      subst hk2
      exact ⟨le_refl 1, by norm_num [RATE_LIMIT_MAX]⟩
    | some cur =>
      by_cases h1 : now > cur.resetAt
      · have heq : rateLimit b k now =
            (⟨true, none⟩, setEntry b k ⟨1, now + RATE_LIMIT_WINDOW_MS⟩) := by
          simp [rateLimit, hb, h1]
        simp only [heq, setEntry_same] at hk
        injection hk with hk2
        subst hk2
        exact ⟨le_refl 1, by norm_num [RATE_LIMIT_MAX]⟩
      · by_cases h2 : cur.count ≥ RATE_LIMIT_MAX
        · rw [rateLimit_deny now hb h1 h2] at hk
          exact h k e hk
        · simp only [rateLimit_inc now hb h1 h2, setEntry_same] at hk
          injection hk with hk2
          subst hk2
          refine ⟨Nat.succ_le_succ (Nat.zero_le _), ?_⟩
          have : cur.count < RATE_LIMIT_MAX := Nat.lt_of_not_le h2
          exact Nat.succ_le_of_lt this
  · have hsame : (rateLimit b ip now).2 k = b k := by
      cases hb : b ip with
      | none => rw [rateLimit_none now hb]; simp [setEntry, hki]
      | some cur =>
        by_cases h1 : now > cur.resetAt
        · have : rateLimit b ip now =
              (⟨true, none⟩, setEntry b ip ⟨1, now + RATE_LIMIT_WINDOW_MS⟩) := by
            simp [rateLimit, hb, h1]
          rw [this]; simp [setEntry, hki]
        · by_cases h2 : cur.count ≥ RATE_LIMIT_MAX
          · rw [rateLimit_deny now hb h1 h2]
          · rw [rateLimit_inc now hb h1 h2]; simp [setEntry, hki]
    rw [hsame] at hk
    exact h k e hk

theorem runChecks_preserves_inv (ops : List (String × Nat)) :
    ∀ b, BucketInv b → BucketInv (runChecks b ops) := by
  induction ops with
  | nil => intro b h; exact h
  | cons op rest ih =>
    intro b h
    exact ih _ (rateLimit_preserves_inv b op.1 op.2 h)

/-- C10: every `rateLimit` check preserves the table invariant
`1 ≤ count ≤ 3` for all keys, and after any sequence of checks starting from
the empty table every stored entry satisfies it. -/
theorem rateLimit_count_invariant :
    (∀ b ip now, BucketInv b → BucketInv (rateLimit b ip now).2) ∧
    (∀ ops, BucketInv (runChecks (fun _ => none) ops)) :=
  ⟨rateLimit_preserves_inv,
    fun ops => runChecks_preserves_inv ops _ (fun _ _ hk => Option.noConfusion hk)⟩

/-- C10 witness: the invariant holds after one concrete check on the empty
table. -/
theorem rateLimit_count_invariant_witness :
    BucketInv (rateLimit (fun _ => none) "client" 0).2 :=
  rateLimit_count_invariant.1 (fun _ => none) "client" 0
    (fun _ _ hk => Option.noConfusion hk)

/-- C2 (amended): starting with no entry for the key, three checks at
`t1 ≤ t2` within the window opened at `t0` are all Allowed, and a fourth
check at `t3` still inside that window (`t3 ≤ t0 + 60000`) is Denied with
`retryAfterMs = windowResetAt − t3`, which is at most 60,000 and is strictly
positive exactly when the fourth check occurs strictly before
`windowResetAt`; at the boundary `t3 = windowResetAt` it is 0. -/
theorem first_window_fourth_check_denied (b : Bucket) (key : String)
    (t0 t1 t2 t3 : Nat) (h0 : b key = none) (h01 : t0 ≤ t1) (h12 : t1 ≤ t2)
    (h23 : t2 ≤ t3) (w1 : t1 ≤ t0 + RATE_LIMIT_WINDOW_MS)
    (w2 : t2 ≤ t0 + RATE_LIMIT_WINDOW_MS) (w3 : t3 ≤ t0 + RATE_LIMIT_WINDOW_MS) :
    (checkSeq b key [t0, t1, t2, t3]).1 =
      [⟨true, none⟩, ⟨true, none⟩, ⟨true, none⟩,
        ⟨false, some (t0 + RATE_LIMIT_WINDOW_MS - t3)⟩] ∧
    t0 + RATE_LIMIT_WINDOW_MS - t3 ≤ 60000 ∧
    (t3 < t0 + RATE_LIMIT_WINDOW_MS → 0 < t0 + RATE_LIMIT_WINDOW_MS - t3) := by
  have e1 := rateLimit_none t0 h0
  have hb1 : (setEntry b key ⟨1, t0 + RATE_LIMIT_WINDOW_MS⟩) key =
      some ⟨1, t0 + RATE_LIMIT_WINDOW_MS⟩ := setEntry_same ..
  have e2 := rateLimit_inc t1 hb1 (Nat.not_lt.mpr w1)
    (by norm_num [RATE_LIMIT_MAX])
  have hb2 : (setEntry (setEntry b key ⟨1, t0 + RATE_LIMIT_WINDOW_MS⟩) key
      ⟨2, t0 + RATE_LIMIT_WINDOW_MS⟩) key = some ⟨2, t0 + RATE_LIMIT_WINDOW_MS⟩ :=
    setEntry_same ..
  have e3 := rateLimit_inc t2 hb2 (Nat.not_lt.mpr w2)
    (by norm_num [RATE_LIMIT_MAX])
  have hb3 : (setEntry (setEntry (setEntry b key ⟨1, t0 + RATE_LIMIT_WINDOW_MS⟩)
      key ⟨2, t0 + RATE_LIMIT_WINDOW_MS⟩) key ⟨3, t0 + RATE_LIMIT_WINDOW_MS⟩) key =
      some ⟨3, t0 + RATE_LIMIT_WINDOW_MS⟩ := setEntry_same ..
  have e4 := rateLimit_deny t3 hb3 (Nat.not_lt.mpr w3)
    (by norm_num [RATE_LIMIT_MAX])
  have hW : RATE_LIMIT_WINDOW_MS = 60000 := rfl
  refine ⟨?_, ?_, ?_⟩
  · simp only [checkSeq, e1, e2, e3, e4]
  · omega
  · intro h; omega

/-- C2 counterexample to the claim as stated: the code's own notion of the
window opened at `t0 = 0` is `now ≤ windowResetAt = 60000` (it resets only
when `now > windowResetAt`), and a fourth check at exactly `now = 60000` is
still Denied — so it is within that window — yet its `retryAfterMs` is 0,
not strictly greater than 0. -/
theorem fourth_check_boundary_zero_retry :
    (checkSeq (fun _ => none) "client" [0, 1, 2, 60000]).1 =
      [⟨true, none⟩, ⟨true, none⟩, ⟨true, none⟩, ⟨false, some 0⟩] ∧
    ¬ 0 < (((checkSeq (fun _ => none) "client" [0, 1, 2, 60000]).1.getD 3
      ⟨true, none⟩).retryAfterMs.getD 1) := by
  decide

/-- C2 witness: a concrete in-window run — checks at 0, 10, 20 and 30 ms —
gives Allowed, Allowed, Allowed, then Denied with `retryAfterMs = 59970`,
positive and at most 60,000. -/
theorem first_window_fourth_check_denied_witness :
    (checkSeq (fun _ => none) "client" [0, 10, 20, 30]).1 =
      [⟨true, none⟩, ⟨true, none⟩, ⟨true, none⟩, ⟨false, some 59970⟩] ∧
    (59970 : Nat) ≤ 60000 ∧ (0 : Nat) < 59970 := by
  have h := first_window_fourth_check_denied (fun _ => none) "client" 0 10 20 30
    rfl (by decide) (by decide) (by decide) (by decide) (by decide) (by decide)
  exact ⟨h.1, h.2.1, h.2.2 (by decide)⟩

/-- C4: a POST request whose honeypot field is non-empty after trimming gets
status 200 with body `{ok: true}`, no send is attempted, and the rate-limit
table is untouched — whatever the other fields, configuration, table, clock
and relay are. -/
theorem honeypot_silent_accept (xff remoteAddr : Option String) (body : Body)
    (env : Env) (bucket : Bucket) (now year month day : Nat)
    (randDigits : List Nat) (relay : Nat → Bool) (h : String)
    (hh : body.hp = some h) (ht : trimS h ≠ "") :
    (handler "POST" xff remoteAddr body env bucket now year month day
        randDigits relay).response = ⟨200, true, none, none, none⟩ ∧
    (handler "POST" xff remoteAddr body env bucket now year month day
        randDigits relay).sends = [] ∧
    (handler "POST" xff remoteAddr body env bucket now year month day
        randDigits relay).bucket = bucket := by
  have hne : h ≠ "" := by
    intro he
    exact ht (by rw [he]; rfl)
  have htrip : hpTripped body.hp = true := by
    rw [hh]
    simp [hpTripped, hne, ht]
  unfold handler
  rw [if_neg (fun hc => hc rfl), if_pos htrip]
  exact ⟨rfl, rfl, rfl⟩

/-- C4 witness: a concrete bot submission (`hp = "bot"`, everything else
absent) is silently accepted with no send. -/
theorem honeypot_silent_accept_witness :
    (handler "POST" none none hpBody okEnv emptyBucket 0 2026 2 10 []
        allRelayOk).response = ⟨200, true, none, none, none⟩ ∧
    (handler "POST" none none hpBody okEnv emptyBucket 0 2026 2 10 []
        allRelayOk).sends = [] ∧
    (handler "POST" none none hpBody okEnv emptyBucket 0 2026 2 10 []
        allRelayOk).bucket = emptyBucket :=
  honeypot_silent_accept none none hpBody okEnv emptyBucket 0 2026 2 10 []
    allRelayOk "bot" rfl (by decide)

/-- C5: for an accepted submission (POST, honeypot empty, rate limit
allowed, fields valid, relay configured), if the first relay send fails the
response is 500 with error `send_failed` and exactly one send — the admin
notification — was attempted: the acknowledgement send is never reached. -/
theorem first_send_failure_stops (xff remoteAddr : Option String)
    (body : Body) (env : Env) (bucket : Bucket) (now year month day : Nat)
    (randDigits : List Nat) (relay : Nat → Bool)
    (hhp : hpTripped body.hp = false)
    (hrl : (rateLimit bucket (clientIp xff remoteAddr) now).1.ok = true)
    (hname : trimS (strOr body.name) ≠ "")
    (hemail : trimS (strOr body.email) ≠ "")
    (hmsg : trimS (strOr body.message) ≠ "")
    (hvalid : isValidEmail (trimS (strOr body.email)) = true)
    (hlen : ¬ (80 < (trimS (strOr body.name)).length ∨
      120 < (trimS (strOr body.company)).length ∨
      200 < (trimS (strOr body.website)).length ∨
      80 < (trimS (strOr body.phone)).length))
    (hmlen : ¬ 5000 < (trimS (strOr body.message)).length)
    (hcfg : ¬ (isFalsyEnv env.mailHost = true ∨ isFalsyEnv env.mailUser = true ∨
      isFalsyEnv env.mailPass = true ∨ isFalsyEnv env.mailTo = true))
    (hr : relay 0 = false) :
    (handler "POST" xff remoteAddr body env bucket now year month day
        randDigits relay).response.status = 500 ∧
    (handler "POST" xff remoteAddr body env bucket now year month day
        randDigits relay).response.error = some "send_failed" ∧
    (handler "POST" xff remoteAddr body env bucket now year month day
        randDigits relay).sends.length = 1 := by
  simp only [handler]
  rw [if_neg (fun hc => hc rfl)]
  rw [if_neg (by simp [hhp])]
  rw [if_neg (by simp [hrl])]
  rw [if_neg (by simp [hname, hemail, hmsg])]
  rw [if_neg (by simp [hvalid])]
  rw [if_neg hlen]
  rw [if_neg hmlen]
  rw [if_neg hcfg]
  rw [if_pos hr]
  exact ⟨rfl, rfl, rfl⟩

/-- C5 witness: a concrete valid submission with a failing relay yields
500 `send_failed` after exactly one attempted send. -/
theorem first_send_failure_stops_witness :
    (handler "POST" none none okBody okEnv emptyBucket 0 2026 2 10
        [0, 1, 2, 3, 4, 5] noRelay).response.status = 500 ∧
    (handler "POST" none none okBody okEnv emptyBucket 0 2026 2 10
        [0, 1, 2, 3, 4, 5] noRelay).response.error = some "send_failed" ∧
    (handler "POST" none none okBody okEnv emptyBucket 0 2026 2 10
        [0, 1, 2, 3, 4, 5] noRelay).sends.length = 1 :=
  first_send_failure_stops none none okBody okEnv emptyBucket 0 2026 2 10
    [0, 1, 2, 3, 4, 5] noRelay (by decide) (by decide) (by decide) (by decide)
    (by decide) (by decide) (by decide) (by decide) (by decide) rfl

/-- C7: the acknowledgement summary is the full trimmed message when its
length is at most 220, and its first 220 characters followed by the ellipsis
marker `...` when longer; in both cases the line carrying it appears in the
acknowledgement body lines. -/
theorem summary_truncation (m : String) :
    (m.data.length ≤ 220 → summaryOf m = m) ∧
    (220 < m.data.length →
      (summaryOf m).data = m.data.take 220 ++ ['.', '.', '.']) ∧
    (∀ tk nm co ph, ("- Message (summary): " ++ summaryOf m) ∈
      userLines tk nm co ph m) := by
  refine ⟨?_, ?_, ?_⟩
  · intro h
    unfold summaryOf
    rw [if_neg (by omega)]
  · intro h
    unfold summaryOf
    rw [if_pos (by omega), String.data_append]
    have h1 : (jsSlice m 0 220).data = (m.data.drop 0).take (220 - 0) := rfl
    have hdots : "...".data = ['.', '.', '.'] := rfl
    rw [h1, hdots]
    simp
  · intro tk nm co ph
    simp [userLines]

set_option maxRecDepth 4000 in
/-- C7 witness: for a 300-character message the summary is the first 220
characters plus `...`; a 100-character message is returned unmodified. -/
theorem summary_truncation_witness :
    ((summaryOf sampleLong).data = sampleLong.data.take 220 ++ ['.', '.', '.']) ∧
    summaryOf sampleShort = sampleShort :=
  ⟨(summary_truncation sampleLong).2.1 (by decide),
    (summary_truncation sampleShort).1 (by decide)⟩

/-- C8: for a POST, non-honeypot, non-rate-limited, syntactically valid
submission, if any of the configured host, user, pass or recipient is falsy
(absent or empty) the response is 500 with error `server_not_configured`
and no send is attempted. -/
theorem missing_config_no_send (xff remoteAddr : Option String) (body : Body)
    (env : Env) (bucket : Bucket) (now year month day : Nat)
    (randDigits : List Nat) (relay : Nat → Bool)
    (hhp : hpTripped body.hp = false)
    (hrl : (rateLimit bucket (clientIp xff remoteAddr) now).1.ok = true)
    (hname : trimS (strOr body.name) ≠ "")
    (hemail : trimS (strOr body.email) ≠ "")
    (hmsg : trimS (strOr body.message) ≠ "")
    (hvalid : isValidEmail (trimS (strOr body.email)) = true)
    (hlen : ¬ (80 < (trimS (strOr body.name)).length ∨
      120 < (trimS (strOr body.company)).length ∨
      200 < (trimS (strOr body.website)).length ∨
      80 < (trimS (strOr body.phone)).length))
    (hmlen : ¬ 5000 < (trimS (strOr body.message)).length)
    (hcfg : isFalsyEnv env.mailHost = true ∨ isFalsyEnv env.mailUser = true ∨
      isFalsyEnv env.mailPass = true ∨ isFalsyEnv env.mailTo = true) :
    (handler "POST" xff remoteAddr body env bucket now year month day
        randDigits relay).response =
      ⟨500, false, some "server_not_configured", none, none⟩ ∧
    (handler "POST" xff remoteAddr body env bucket now year month day
        randDigits relay).sends = [] := by
  simp only [handler]
  rw [if_neg (fun hc => hc rfl)]
  rw [if_neg (by simp [hhp])]
  rw [if_neg (by simp [hrl])]
  rw [if_neg (by simp [hname, hemail, hmsg])]
  rw [if_neg (by simp [hvalid])]
  rw [if_neg hlen]
  rw [if_neg hmlen]
  rw [if_pos hcfg]
  exact ⟨rfl, rfl⟩

/-- C8 witness: a concrete valid submission against a configuration missing
`MAIL_TO` yields 500 `server_not_configured` with no send attempted. -/
theorem missing_config_no_send_witness :
    (handler "POST" none none okBody noToEnv emptyBucket 0 2026 2 10 []
        allRelayOk).response =
      ⟨500, false, some "server_not_configured", none, none⟩ ∧
    (handler "POST" none none okBody noToEnv emptyBucket 0 2026 2 10 []
        allRelayOk).sends = [] :=
  missing_config_no_send none none okBody noToEnv emptyBucket 0 2026 2 10 []
    allRelayOk (by decide) (by decide) (by decide) (by decide) (by decide)
    (by decide) (by decide) (by decide) (by decide)

end Geonix
